import Mathlib

namespace RequestAnalysis

/-!
Shallow embedding of `src/python/request_analysis.py`.

The script reads a CSV into a data frame, filters rows by the PitchType
column, issues two POST requests creating player group segments, and a
third POST creating a requested analysis. We model the CSV as a list of
rows, HTTP as an oracle supplying the outcome of each successive
`requests.post` call, and a run as the ordered list of requests issued
plus either the final printed response body or the Python exception that
aborted the pipeline.
-/

/-- A JSON value, as produced by the `json=` serialization of the
requests library and by `Response.json()`. -/
inductive Json where
  | null
  | bool (b : Bool)
  | num (n : Int)
  | str (s : String)
  | arr (xs : List Json)
  | obj (fields : List (String × Json))
  deriving Repr

/-- One row of `movements_with_pitch_types.csv`: an MLBPlayId column and a
PitchType column. -/
structure Row where
  mlbPlayId : String
  pitchType : String
  deriving Repr, DecidableEq

/-- Python exceptions the script can raise. `requests.post` raises a
connection error on transport failure; `d[k]` raises KeyError on a missing
dict key and TypeError when the value is not a dict; `int(x)` raises
ValueError on a non-numeric string and TypeError on non-convertible values. -/
inductive PyError where
  | connectionError
  | keyError (k : String)
  | typeError
  | valueError
  deriving Repr, DecidableEq

/-- An HTTP response: status code and decoded JSON body. The script never
inspects the status code. -/
structure Response where
  status : Nat
  body : Json

/-- Outcome of one `requests.post` call, supplied by the environment. -/
inductive HttpOutcome where
  | ok (resp : Response)
  | netError

/-- One outbound HTTP POST request: URL, headers, JSON body. -/
structure Request where
  url : String
  headers : List (String × String)
  body : Json

/-- `create_primary_segment.json()["analysis_segment_id"]`: dict indexing
on the decoded body. -/
def jsonGet (j : Json) (k : String) : Except PyError Json :=
  match j with
  | .obj fields =>
    match fields.lookup k with
    | some v => .ok v
    | none => .error (.keyError k)
  | _ => .error .typeError

/-- Whitespace accepted around a Python integer literal. -/
def isSpaceChar (c : Char) : Bool :=
  c == ' ' || c == '\t' || c == '\n' || c == '\r'

/-- Value of a decimal digit character, none for a non-digit. -/
def digitVal (c : Char) : Option Nat :=
  let n := c.toNat
  if 48 ≤ n ∧ n ≤ 57 then some (n - 48) else none

/-- Left-to-right accumulation of decimal digits; none on a non-digit. -/
def natOfDigits : List Char → Nat → Option Nat
  | [], acc => some acc
  | c :: cs, acc =>
    match digitVal c with
    | some d => natOfDigits cs (acc * 10 + d)
    | none => none

/-- Decimal integer a la Python `int(str)`: optional surrounding
whitespace, optional sign, then at least one digit. (Python also
accepts underscores between digits; those inputs are outside the
behaviors at stake here.) -/
def parsePyInt (s : String) : Option Int :=
  let cs := ((s.data.dropWhile isSpaceChar).reverse.dropWhile isSpaceChar).reverse
  match cs with
  | [] => none
  | '-' :: rest =>
    if rest = [] then none else (natOfDigits rest 0).map (fun n => -(n : Int))
  | '+' :: rest =>
    if rest = [] then none else (natOfDigits rest 0).map (fun n => (n : Int))
  | _ => (natOfDigits cs 0).map (fun n => (n : Int))

/-- Python `int(x)` applied to a decoded JSON value: integers pass
through, numeric strings are parsed, everything else raises. -/
def pyInt (v : Json) : Except PyError Int :=
  match v with
  | .num n => .ok n
  | .bool b => .ok (if b then 1 else 0)
  | .str s =>
    match parsePyInt s with
    | some n => .ok n
    | none => .error .valueError
  | _ => .error .typeError

/-- `csv_df[csv_df["PitchType"] == pt]`: keep the rows whose PitchType
equals `pt` (case-sensitive exact match), preserving order. -/
def filterByPitchType (rows : List Row) (pt : String) : List Row :=
  rows.filter (fun r => r.pitchType == pt)

/-- `df["MLBPlayId"].tolist()`. -/
def idsOf (rows : List Row) : List String :=
  rows.map (fun r => r.mlbPlayId)

def playerGroupSegmentsUrl : String :=
  "https://api.rebootmotion.com/player_group_segments"

def requestedAnalysesUrl : String :=
  "https://api.rebootmotion.com/requested_analyses"

/-- The `primary_segment_criteria` dict literal of Step 3a. -/
def primarySegmentCriteria (ids : List String) : Json :=
  .obj [("external_context_ids", .arr (ids.map .str)),
        ("movement_type_id", .num 2),
        ("mocap_type_id", .num 104),
        ("dom_hand", .str "RHA")]

/-- The `comparison_segment_criteria` dict literal of Step 4a. -/
def comparisonSegmentCriteria (ids : List String) : Json :=
  .obj [("external_context_ids", .arr (ids.map .str)),
        ("movement_type_id", .num 2),
        ("mocap_type_id", .num 104),
        ("dom_hand", .str "RHA")]

/-- The `requested_analysis_criteria` dict literal of Step 5a. -/
def requestedAnalysisCriteria (p c : Int) : Json :=
  .obj [("name", .str "Example Pitcher Fastballs vs Curveballs"),
        ("primary_analysis_segment_id", .num p),
        ("comparison_analysis_segment_id", .num c),
        ("status", .str "requested")]

/-- `requests.post(url, headers=..., json=body)` as the record of the
request it sends. -/
def post (url : String) (apiKey : String) (body : Json) : Request :=
  { url := url, headers := [("x-api-key", apiKey)], body := body }

/-- The result of running the script: the POST requests issued, in
order, and either the final printed response body or the exception. -/
structure RunResult where
  requests : List Request
  outcome : Except PyError Json

/-- The `main()` function of the script. `apiKey` is the value of the
API_KEY environment variable, `rows` the parsed CSV, and `o1 o2 o3` the
outcomes of the three successive `requests.post` calls (steps 3b, 4b,
5b), supplied by the environment. -/
def main (apiKey : String) (rows : List Row) (o1 o2 o3 : HttpOutcome) : RunResult :=
  let primary_df := filterByPitchType rows "Fastball"
  let req1 := post playerGroupSegmentsUrl apiKey (primarySegmentCriteria (idsOf primary_df))
  match o1 with
  | .netError => ⟨[req1], .error .connectionError⟩
  | .ok resp1 =>
    match jsonGet resp1.body "analysis_segment_id" with
    | .error e => ⟨[req1], .error e⟩
    | .ok primary_segment_id =>
      let comparison_df := filterByPitchType rows "Curveball"
      let req2 := post playerGroupSegmentsUrl apiKey
        (comparisonSegmentCriteria (idsOf comparison_df))
      match o2 with
      | .netError => ⟨[req1, req2], .error .connectionError⟩
      | .ok resp2 =>
        match jsonGet resp2.body "analysis_segment_id" with
        | .error e => ⟨[req1, req2], .error e⟩
        | .ok comparison_segment_id =>
          match pyInt primary_segment_id with
          | .error e => ⟨[req1, req2], .error e⟩
          | .ok p =>
            match pyInt comparison_segment_id with
            | .error e => ⟨[req1, req2], .error e⟩
            | .ok c =>
              let req3 := post requestedAnalysesUrl apiKey (requestedAnalysisCriteria p c)
              match o3 with
              | .netError => ⟨[req1, req2, req3], .error .connectionError⟩
              | .ok resp3 => ⟨[req1, req2, req3], .ok resp3.body⟩

/-- The input table of the end-to-end scenario. -/
def exampleRows : List Row :=
  [⟨"001", "Fastball"⟩, ⟨"002", "Curveball"⟩, ⟨"003", "Fastball"⟩]

/-- The run of the end-to-end scenario: segment-creation responses with
ids 10 and 20, then a final response. -/
def exampleRun : RunResult :=
  main "key" exampleRows
    (.ok ⟨200, .obj [("analysis_segment_id", .num 10)]⟩)
    (.ok ⟨200, .obj [("analysis_segment_id", .num 20)]⟩)
    (.ok ⟨200, .obj [("requested_analysis_id", .num 99)]⟩)

/-- C1: on the three example rows the identifiers partition into
primary 001,003 and comparison 002, and with mocked segment ids 10 and
20 the body of the third POST is the requested-analysis record with
name, primary id 10, comparison id 20 and status requested. -/
theorem c1_end_to_end :
    idsOf (filterByPitchType exampleRows "Fastball") = ["001", "003"] ∧
    idsOf (filterByPitchType exampleRows "Curveball") = ["002"] ∧
    (exampleRun.requests.map Request.body).getD 2 .null =
      Json.obj [("name", .str "Example Pitcher Fastballs vs Curveballs"),
                ("primary_analysis_segment_id", .num 10),
                ("comparison_analysis_segment_id", .num 20),
                ("status", .str "requested")] :=
  ⟨rfl, rfl, rfl⟩

/-- C2: the two selections partition the identifiers: their union (as
sets) is exactly the set of identifiers of rows whose PitchType equals
one of the two group values, each preserves input row order (it is a
sublist of the input identifier column), and rows matching neither value
are in neither selection. -/
theorem c2_load_and_partition (rows : List Row) :
    (∀ x, (x ∈ idsOf (filterByPitchType rows "Fastball") ∨
           x ∈ idsOf (filterByPitchType rows "Curveball")) ↔
          ∃ r ∈ rows, r.mlbPlayId = x ∧
            (r.pitchType = "Fastball" ∨ r.pitchType = "Curveball")) ∧
    List.Sublist (idsOf (filterByPitchType rows "Fastball")) (idsOf rows) ∧
    List.Sublist (idsOf (filterByPitchType rows "Curveball")) (idsOf rows) ∧
    ∀ r ∈ rows, r.pitchType ≠ "Fastball" → r.pitchType ≠ "Curveball" →
      r ∉ filterByPitchType rows "Fastball" ∧ r ∉ filterByPitchType rows "Curveball" := by
  refine ⟨?_, ?_, ?_, ?_⟩
  · intro x
    simp only [idsOf, filterByPitchType, List.mem_map, List.mem_filter, beq_iff_eq]
    constructor
    · rintro (⟨r, ⟨hr, hpt⟩, hid⟩ | ⟨r, ⟨hr, hpt⟩, hid⟩)
      · exact ⟨r, hr, hid, Or.inl hpt⟩
      · exact ⟨r, hr, hid, Or.inr hpt⟩
    · rintro ⟨r, hr, hid, hpt | hpt⟩
      · exact Or.inl ⟨r, ⟨hr, hpt⟩, hid⟩
      · exact Or.inr ⟨r, ⟨hr, hpt⟩, hid⟩
  · exact List.Sublist.map _ (List.filter_sublist _)
  · exact List.Sublist.map _ (List.filter_sublist _)
  · intro r hr h1 h2
    constructor <;> simp [filterByPitchType, List.mem_filter, h1, h2]

/-- Witness for C2 at the example rows. -/
theorem c2_load_and_partition_witness :
    ("001" ∈ idsOf (filterByPitchType exampleRows "Fastball") ∨
     "001" ∈ idsOf (filterByPitchType exampleRows "Curveball")) ∧
    List.Sublist (idsOf (filterByPitchType exampleRows "Fastball")) (idsOf exampleRows) :=
  ⟨((c2_load_and_partition exampleRows).1 "001").mpr
      ⟨⟨"001", "Fastball"⟩, by simp [exampleRows], rfl, Or.inl rfl⟩,
   (c2_load_and_partition exampleRows).2.1⟩

/-- Helper: whatever the outcomes, the primary segment POST is always
the first request issued; nothing is checked locally before it. -/
theorem main_requests_head (apiKey : String) (rows : List Row) (o1 o2 o3 : HttpOutcome) :
    (main apiKey rows o1 o2 o3).requests.head? =
      some (post playerGroupSegmentsUrl apiKey
        (primarySegmentCriteria (idsOf (filterByPitchType rows "Fastball")))) := by
  unfold main
  repeat first
  | rfl
  | split

/-- The run in which every response carries a non-2xx status code yet
includes the expected field. -/
def non2xxRun : RunResult :=
  main "key" exampleRows
    (.ok ⟨500, .obj [("analysis_segment_id", .num 10)]⟩)
    (.ok ⟨500, .obj [("analysis_segment_id", .num 20)]⟩)
    (.ok ⟨500, .obj [("detail", .str "server error")]⟩)

/-- C3 counterexample: with first response status 500 (non-2xx) whose
body carries analysis_segment_id 10, the run does not fail at all: a
segment id is produced, all three requests go out and the run succeeds,
because the script never checks the response status. -/
theorem c3_counterexample :
    non2xxRun.outcome = Except.ok (.obj [("detail", .str "server error")]) ∧
    non2xxRun.requests.length = 3 ∧
    (non2xxRun.requests.map Request.body).getD 2 .null =
      requestedAnalysisCriteria 10 20 :=
  ⟨rfl, rfl, rfl⟩

/-- C3 amended, covering both executions of the segment-creation step:
if a POST raises a transport error, or its response body lacks the
analysis_segment_id field, the run fails with that error (a connection
error, or the KeyError or TypeError raised by the field access),
propagated without retry: for the primary call exactly one request was
issued, for the comparison call exactly two, and no segment id is
produced by the failing call. -/
theorem c3_amended_failure (apiKey : String) (rows : List Row) (o2 o3 : HttpOutcome) :
    ((main apiKey rows .netError o2 o3).outcome = .error .connectionError ∧
     (main apiKey rows .netError o2 o3).requests.length = 1) ∧
    (∀ resp : Response, ∀ e : PyError,
      jsonGet resp.body "analysis_segment_id" = .error e →
      (main apiKey rows (.ok resp) o2 o3).outcome = .error e ∧
      (main apiKey rows (.ok resp) o2 o3).requests.length = 1) ∧
    (∀ resp1 : Response, ∀ v1 : Json,
      jsonGet resp1.body "analysis_segment_id" = .ok v1 →
      (main apiKey rows (.ok resp1) .netError o3).outcome = .error .connectionError ∧
      (main apiKey rows (.ok resp1) .netError o3).requests.length = 2) ∧
    (∀ resp1 resp2 : Response, ∀ v1 : Json, ∀ e : PyError,
      jsonGet resp1.body "analysis_segment_id" = .ok v1 →
      jsonGet resp2.body "analysis_segment_id" = .error e →
      (main apiKey rows (.ok resp1) (.ok resp2) o3).outcome = .error e ∧
      (main apiKey rows (.ok resp1) (.ok resp2) o3).requests.length = 2) := by
  refine ⟨⟨rfl, rfl⟩, ?_, ?_, ?_⟩
  · intro resp e h
    simp only [main, h]
    exact ⟨trivial, rfl⟩
  · intro resp1 v1 h1
    simp only [main, h1]
    exact ⟨trivial, rfl⟩
  · intro resp1 resp2 v1 e h1 h2
    simp only [main, h1, h2]
    exact ⟨trivial, rfl⟩

/-- Witness for C3 amended: a body without the field fails the primary
call with KeyError after one request; after a good primary response, a
transport error on the comparison call fails with the connection error
after two requests, and a comparison body without the field fails with
KeyError after two requests. -/
theorem c3_amended_failure_witness :
    ((main "key" exampleRows (.ok ⟨200, .obj []⟩) .netError .netError).outcome =
       .error (.keyError "analysis_segment_id") ∧
     (main "key" exampleRows (.ok ⟨200, .obj []⟩) .netError .netError).requests.length = 1) ∧
    ((main "key" exampleRows (.ok ⟨200, .obj [("analysis_segment_id", .num 10)]⟩)
        .netError .netError).outcome = .error .connectionError ∧
     (main "key" exampleRows (.ok ⟨200, .obj [("analysis_segment_id", .num 10)]⟩)
        .netError .netError).requests.length = 2) ∧
    ((main "key" exampleRows (.ok ⟨200, .obj [("analysis_segment_id", .num 10)]⟩)
        (.ok ⟨200, .obj []⟩) .netError).outcome =
       .error (.keyError "analysis_segment_id") ∧
     (main "key" exampleRows (.ok ⟨200, .obj [("analysis_segment_id", .num 10)]⟩)
        (.ok ⟨200, .obj []⟩) .netError).requests.length = 2) :=
  ⟨(c3_amended_failure "key" exampleRows .netError .netError).2.1 ⟨200, .obj []⟩
      (.keyError "analysis_segment_id") rfl,
   (c3_amended_failure "key" exampleRows .netError .netError).2.2.1
      ⟨200, .obj [("analysis_segment_id", .num 10)]⟩ (.num 10) rfl,
   (c3_amended_failure "key" exampleRows .netError .netError).2.2.2
      ⟨200, .obj [("analysis_segment_id", .num 10)]⟩ ⟨200, .obj []⟩ (.num 10)
      (.keyError "analysis_segment_id") rfl rfl⟩

/-- C4: if a segment-creation response body is an object without the
analysis_segment_id field, the run fails right there with the
missing-field error (the KeyError naming the field, the shape §7 calls
ResponseShapeError) and no subsequent POST is issued: a missing field in
the primary response leaves exactly the primary request issued, and a
missing field in the comparison response leaves exactly the two segment
requests issued. -/
theorem c4_missing_field_aborts (apiKey : String) (rows : List Row) :
    (∀ st : Nat, ∀ fields : List (String × Json), ∀ o2 o3 : HttpOutcome,
      fields.lookup "analysis_segment_id" = none →
      (main apiKey rows (.ok ⟨st, .obj fields⟩) o2 o3).outcome =
        .error (.keyError "analysis_segment_id") ∧
      (main apiKey rows (.ok ⟨st, .obj fields⟩) o2 o3).requests =
        [post playerGroupSegmentsUrl apiKey
          (primarySegmentCriteria (idsOf (filterByPitchType rows "Fastball")))]) ∧
    (∀ st1 st2 : Nat, ∀ fields1 fields2 : List (String × Json), ∀ v : Json,
      ∀ o3 : HttpOutcome,
      fields1.lookup "analysis_segment_id" = some v →
      fields2.lookup "analysis_segment_id" = none →
      (main apiKey rows (.ok ⟨st1, .obj fields1⟩) (.ok ⟨st2, .obj fields2⟩) o3).outcome =
        .error (.keyError "analysis_segment_id") ∧
      (main apiKey rows (.ok ⟨st1, .obj fields1⟩) (.ok ⟨st2, .obj fields2⟩) o3).requests =
        [post playerGroupSegmentsUrl apiKey
          (primarySegmentCriteria (idsOf (filterByPitchType rows "Fastball"))),
         post playerGroupSegmentsUrl apiKey
          (comparisonSegmentCriteria (idsOf (filterByPitchType rows "Curveball")))]) := by
  constructor
  · intro st fields o2 o3 h
    have hj : jsonGet (Json.obj fields) "analysis_segment_id" =
        .error (.keyError "analysis_segment_id") := by
      simp [jsonGet, h]
    constructor <;> simp [main, hj]
  · intro st1 st2 fields1 fields2 v o3 h1 h2
    have hj1 : jsonGet (Json.obj fields1) "analysis_segment_id" = .ok v := by
      simp [jsonGet, h1]
    have hj2 : jsonGet (Json.obj fields2) "analysis_segment_id" =
        .error (.keyError "analysis_segment_id") := by
      simp [jsonGet, h2]
    constructor <;> simp [main, hj1, hj2]

/-- Witness for C4: a primary response with only a detail field aborts
after one request with the missing-field error. -/
theorem c4_missing_field_aborts_witness :
    (main "key" exampleRows (.ok ⟨200, .obj [("detail", .str "created")]⟩)
        .netError .netError).outcome = .error (.keyError "analysis_segment_id") ∧
    (main "key" exampleRows (.ok ⟨200, .obj [("detail", .str "created")]⟩)
        .netError .netError).requests =
      [post playerGroupSegmentsUrl "key" (primarySegmentCriteria ["001", "003"])] :=
  (c4_missing_field_aborts "key" exampleRows).1 200 [("detail", .str "created")]
    .netError .netError rfl

/-- C5: the movement_type_id, mocap_type_id and dom_hand fields of the
primary criteria equal those of the comparison criteria, whatever the
two identifier lists are, and no local validation of this is performed:
the first POST goes out on every run, whatever the input. -/
theorem c5_shared_segment_fields (pids cids : List String) :
    jsonGet (primarySegmentCriteria pids) "movement_type_id" =
      jsonGet (comparisonSegmentCriteria cids) "movement_type_id" ∧
    jsonGet (primarySegmentCriteria pids) "mocap_type_id" =
      jsonGet (comparisonSegmentCriteria cids) "mocap_type_id" ∧
    jsonGet (primarySegmentCriteria pids) "dom_hand" =
      jsonGet (comparisonSegmentCriteria cids) "dom_hand" ∧
    ∀ apiKey : String, ∀ rows : List Row, ∀ o1 o2 o3 : HttpOutcome,
      (main apiKey rows o1 o2 o3).requests ≠ [] := by
  refine ⟨rfl, rfl, rfl, ?_⟩
  intro apiKey rows o1 o2 o3 hnil
  have hhead := main_requests_head apiKey rows o1 o2 o3
  rw [hnil] at hhead
  exact Option.noConfusion hhead

/-- Witness for C5 at the example identifier lists. -/
theorem c5_shared_segment_fields_witness :
    jsonGet (primarySegmentCriteria ["001", "003"]) "movement_type_id" =
      jsonGet (comparisonSegmentCriteria ["002"]) "movement_type_id" :=
  (c5_shared_segment_fields ["001", "003"] ["002"]).1

/-- Helper: a successful run forces every step to have succeeded, and
determines the full request trace. -/
theorem main_ok_characterization (apiKey : String) (rows : List Row)
    (o1 o2 o3 : HttpOutcome) (body : Json)
    (h : (main apiKey rows o1 o2 o3).outcome = Except.ok body) :
    ∃ resp1 resp2 resp3 : Response, ∃ v1 v2 : Json, ∃ p c : Int,
      o1 = .ok resp1 ∧ o2 = .ok resp2 ∧ o3 = .ok resp3 ∧
      jsonGet resp1.body "analysis_segment_id" = .ok v1 ∧
      jsonGet resp2.body "analysis_segment_id" = .ok v2 ∧
      pyInt v1 = .ok p ∧ pyInt v2 = .ok c ∧
      body = resp3.body ∧
      (main apiKey rows o1 o2 o3).requests =
        [post playerGroupSegmentsUrl apiKey
           (primarySegmentCriteria (idsOf (filterByPitchType rows "Fastball"))),
         post playerGroupSegmentsUrl apiKey
           (comparisonSegmentCriteria (idsOf (filterByPitchType rows "Curveball"))),
         post requestedAnalysesUrl apiKey (requestedAnalysisCriteria p c)] := by
  cases o1 with
  | netError => simp [main] at h
  | ok resp1 =>
    cases hj1 : jsonGet resp1.body "analysis_segment_id" with
    | error e => simp [main, hj1] at h
    | ok v1 =>
      cases o2 with
      | netError => simp [main, hj1] at h
      | ok resp2 =>
        cases hj2 : jsonGet resp2.body "analysis_segment_id" with
        | error e => simp [main, hj1, hj2] at h
        | ok v2 =>
          cases hp : pyInt v1 with
          | error e => simp [main, hj1, hj2, hp] at h
          | ok p =>
            cases hc : pyInt v2 with
            | error e => simp [main, hj1, hj2, hp, hc] at h
            | ok c =>
              cases o3 with
              | netError => simp [main, hj1, hj2, hp, hc] at h
              | ok resp3 =>
                simp only [main, hj1, hj2, hp, hc] at h ⊢
                exact ⟨resp1, resp2, resp3, v1, v2, p, c, rfl, rfl, rfl,
                  hj1, hj2, hp, hc, (Except.ok.inj h).symm, rfl⟩

/-- C6: every successful run issues the three POSTs strictly in order:
primary segment, comparison segment, requested analysis; the third
request carries the requested-analysis body built from the two segment
ids p and c, which in turn were extracted from the first and second
responses, so it is constructed only after both ids are known. -/
theorem c6_sequential_order (apiKey : String) (rows : List Row)
    (o1 o2 o3 : HttpOutcome) (body : Json)
    (h : (main apiKey rows o1 o2 o3).outcome = Except.ok body) :
    ∃ p c : Int,
      (main apiKey rows o1 o2 o3).requests =
        [post playerGroupSegmentsUrl apiKey
           (primarySegmentCriteria (idsOf (filterByPitchType rows "Fastball"))),
         post playerGroupSegmentsUrl apiKey
           (comparisonSegmentCriteria (idsOf (filterByPitchType rows "Curveball"))),
         post requestedAnalysesUrl apiKey (requestedAnalysisCriteria p c)] ∧
      ∃ resp1 resp2 : Response, ∃ v1 v2 : Json,
        o1 = .ok resp1 ∧ o2 = .ok resp2 ∧
        jsonGet resp1.body "analysis_segment_id" = .ok v1 ∧
        jsonGet resp2.body "analysis_segment_id" = .ok v2 ∧
        pyInt v1 = .ok p ∧ pyInt v2 = .ok c := by
  obtain ⟨r1, r2, r3, v1, v2, p, c, e1, e2, e3, j1, j2, hp, hc, hb, hreq⟩ :=
    main_ok_characterization apiKey rows o1 o2 o3 body h
  exact ⟨p, c, hreq, r1, r2, v1, v2, e1, e2, j1, j2, hp, hc⟩

/-- Witness for C6 at the end-to-end run. -/
theorem c6_sequential_order_witness :
    (main "key" exampleRows
      (.ok ⟨200, .obj [("analysis_segment_id", .num 10)]⟩)
      (.ok ⟨200, .obj [("analysis_segment_id", .num 20)]⟩)
      (.ok ⟨200, .obj [("requested_analysis_id", .num 99)]⟩)).requests.length = 3 := by
  obtain ⟨p, c, hreq, -⟩ := c6_sequential_order "key" exampleRows
    (.ok ⟨200, .obj [("analysis_segment_id", .num 10)]⟩)
    (.ok ⟨200, .obj [("analysis_segment_id", .num 20)]⟩)
    (.ok ⟨200, .obj [("requested_analysis_id", .num 99)]⟩)
    (.obj [("requested_analysis_id", .num 99)]) rfl
  rw [hreq]
  rfl

/-- C7: every complete (successful) run issues exactly three POSTs,
each with the x-api-key header set to the caller-supplied key, the
first two to the player_group_segments endpoint and the third to the
requested_analyses endpoint, with bodies equal to the primary criteria,
the comparison criteria and the requested-analysis criteria. -/
theorem c7_three_posts (apiKey : String) (rows : List Row)
    (o1 o2 o3 : HttpOutcome) (body : Json)
    (h : (main apiKey rows o1 o2 o3).outcome = Except.ok body) :
    (main apiKey rows o1 o2 o3).requests.length = 3 ∧
    (∀ req ∈ (main apiKey rows o1 o2 o3).requests,
      req.headers = [("x-api-key", apiKey)]) ∧
    (main apiKey rows o1 o2 o3).requests.map Request.url =
      [playerGroupSegmentsUrl, playerGroupSegmentsUrl, requestedAnalysesUrl] ∧
    ((main apiKey rows o1 o2 o3).requests.map Request.body).getD 0 .null =
      primarySegmentCriteria (idsOf (filterByPitchType rows "Fastball")) ∧
    ((main apiKey rows o1 o2 o3).requests.map Request.body).getD 1 .null =
      comparisonSegmentCriteria (idsOf (filterByPitchType rows "Curveball")) ∧
    ∃ p c : Int,
      ((main apiKey rows o1 o2 o3).requests.map Request.body).getD 2 .null =
        requestedAnalysisCriteria p c := by
  obtain ⟨r1, r2, r3, v1, v2, p, c, e1, e2, e3, j1, j2, hp, hc, hb, hreq⟩ :=
    main_ok_characterization apiKey rows o1 o2 o3 body h
  rw [hreq]
  refine ⟨rfl, ?_, rfl, rfl, rfl, p, c, rfl⟩
  intro req hmem
  simp only [List.mem_cons, List.not_mem_nil, or_false] at hmem
  rcases hmem with h | h | h <;> subst h <;> rfl

/-- Witness for C7 at the end-to-end run. -/
theorem c7_three_posts_witness :
    (main "key" exampleRows
      (.ok ⟨200, .obj [("analysis_segment_id", .num 10)]⟩)
      (.ok ⟨200, .obj [("analysis_segment_id", .num 20)]⟩)
      (.ok ⟨200, .obj [("requested_analysis_id", .num 99)]⟩)).requests.map Request.url =
      [playerGroupSegmentsUrl, playerGroupSegmentsUrl, requestedAnalysesUrl] :=
  (c7_three_posts "key" exampleRows
    (.ok ⟨200, .obj [("analysis_segment_id", .num 10)]⟩)
    (.ok ⟨200, .obj [("analysis_segment_id", .num 20)]⟩)
    (.ok ⟨200, .obj [("requested_analysis_id", .num 99)]⟩)
    (.obj [("requested_analysis_id", .num 99)]) rfl).2.2.1

/-- C8: when no row matches the primary group value, the primary POST
still goes out, with an empty external_context_ids list: there is no
short-circuit for empty groups. -/
theorem c8_empty_group (apiKey : String) (rows : List Row) (o1 o2 o3 : HttpOutcome)
    (h : ∀ r ∈ rows, r.pitchType ≠ "Fastball") :
    (main apiKey rows o1 o2 o3).requests.head? =
      some (post playerGroupSegmentsUrl apiKey (primarySegmentCriteria [])) ∧
    primarySegmentCriteria [] =
      .obj [("external_context_ids", .arr []),
            ("movement_type_id", .num 2),
            ("mocap_type_id", .num 104),
            ("dom_hand", .str "RHA")] := by
  have hfilter : filterByPitchType rows "Fastball" = [] := by
    rw [filterByPitchType, List.filter_eq_nil_iff]
    intro r hr
    simpa using h r hr
  have hhead := main_requests_head apiKey rows o1 o2 o3
  rw [hfilter] at hhead
  exact ⟨hhead, rfl⟩

/-- Witness for C8: a table with only curveballs still produces the
primary POST with an empty identifier list. -/
theorem c8_empty_group_witness :
    (main "key" [⟨"002", "Curveball"⟩] .netError .netError .netError).requests.head? =
      some (post playerGroupSegmentsUrl "key" (primarySegmentCriteria [])) :=
  (c8_empty_group "key" [⟨"002", "Curveball"⟩] .netError .netError .netError
    (by intro r hr; simp at hr; simp [hr])).1

/-- C9: whenever the two segment responses carry analysis_segment_id
values that Python int() converts (integers, or decimal strings such as
the string 10), the third request body is the requested-analysis record
whose primary and comparison id fields are the integer conversions, as
JSON numbers. -/
theorem c9_int_conversion (apiKey : String) (rows : List Row)
    (resp1 resp2 : Response) (o3 : HttpOutcome) (v1 v2 : Json) (p c : Int)
    (h1 : jsonGet resp1.body "analysis_segment_id" = .ok v1)
    (h2 : jsonGet resp2.body "analysis_segment_id" = .ok v2)
    (hp : pyInt v1 = .ok p) (hc : pyInt v2 = .ok c) :
    ((main apiKey rows (.ok resp1) (.ok resp2) o3).requests.map Request.body).getD 2 .null =
      requestedAnalysisCriteria p c ∧
    jsonGet (requestedAnalysisCriteria p c) "primary_analysis_segment_id" =
      .ok (.num p) ∧
    jsonGet (requestedAnalysisCriteria p c) "comparison_analysis_segment_id" =
      .ok (.num c) := by
  refine ⟨?_, rfl, rfl⟩
  cases o3 <;> simp [main, h1, h2, hp, hc, post]

/-- Witness for C9: string segment ids "10" and "20" are converted to
the integers 10 and 20 in the third request body. -/
theorem c9_int_conversion_witness :
    ((main "key" exampleRows
        (.ok ⟨200, .obj [("analysis_segment_id", .str "10")]⟩)
        (.ok ⟨200, .obj [("analysis_segment_id", .str "20")]⟩)
        (.ok ⟨200, .obj []⟩)).requests.map Request.body).getD 2 .null =
      requestedAnalysisCriteria 10 20 :=
  (c9_int_conversion "key" exampleRows
    ⟨200, .obj [("analysis_segment_id", .str "10")]⟩
    ⟨200, .obj [("analysis_segment_id", .str "20")]⟩
    (.ok ⟨200, .obj []⟩) (.str "10") (.str "20") 10 20 rfl rfl rfl rfl).1

/-- C10: for two distinct group values, no row selected for one group
is also selected for the other, so the two identifier sequences are
drawn from disjoint sets of rows. -/
theorem c10_disjoint_groups (rows : List Row) (a b : String) (hab : a ≠ b) :
    ∀ r : Row, r ∈ filterByPitchType rows a → r ∉ filterByPitchType rows b := by
  intro r hra hrb
  simp only [filterByPitchType, List.mem_filter, beq_iff_eq] at hra hrb
  exact hab (hra.2.symm.trans hrb.2)

/-- Witness for C10: the first example row, selected as a fastball, is
not selected as a curveball. -/
theorem c10_disjoint_groups_witness :
    (⟨"001", "Fastball"⟩ : Row) ∉ filterByPitchType exampleRows "Curveball" :=
  c10_disjoint_groups exampleRows "Fastball" "Curveball" (by decide)
    ⟨"001", "Fastball"⟩ (by simp [exampleRows, filterByPitchType])

end RequestAnalysis
